import Mathlib

/-!
Shallow embedding of `distributed_traffic_sim.py` (master and worker nodes of the
distributed traffic simulation) together with theorems checking the repository
specification against the code.

Conventions of the embedding:
* Python floats that only ever hold exact small decimal values (positions, times)
  are modelled as rationals.
* Python dicts keyed by zone name are modelled as association lists with
  first-occurrence lookup and in-place replacement, matching dict semantics for
  unique keys.
* The stream of `random.random()` draws of one worker tick is determinized into an
  explicit record of the decisions the source derives from them.
* Master and worker run as separate OS processes; their module-level globals are
  therefore separate states (`MasterState` and `WorkerState`).
-/

namespace TrafficSim

/-- Constant `ZONE_SIZE = 200` from the module configuration. -/
def ZONE_SIZE : ℚ := 200

/-- Constant `CAR_SIZE = 5`. -/
def CAR_SIZE : ℚ := 5

/-- Constant `CAR_SPEED = 7`. -/
def CAR_SPEED : ℚ := 7

/-- Constant `MAX_CARS_PER_ZONE = 80`. -/
def MAX_CARS_PER_ZONE : Nat := 80

/-- Vehicle headings, the strings `'N', 'S', 'E', 'W'` of the source. -/
inductive Direction where
  | N
  | S
  | E
  | W
deriving DecidableEq, Repr

/-- Class `Vehicle`: position, heading, owning zone bounds
`(min_x, min_y, max_x, max_y)` and identity. -/
structure Vehicle where
  x : ℚ
  y : ℚ
  direction : Direction
  zone_bounds : ℚ × ℚ × ℚ × ℚ
  id : String
deriving DecidableEq, Repr

/-- Method `Vehicle.move`: advance by `CAR_SPEED` along the heading and wrap to the
opposite edge (offset by `CAR_SIZE`) when the leading edge of the zone is passed. -/
def Vehicle.move (v : Vehicle) : Vehicle :=
  let min_x := v.zone_bounds.1
  let min_y := v.zone_bounds.2.1
  let max_x := v.zone_bounds.2.2.1
  let max_y := v.zone_bounds.2.2.2
  match v.direction with
  | .E =>
    let x := v.x + CAR_SPEED
    { v with x := if x > max_x + CAR_SIZE then min_x - CAR_SIZE else x }
  | .W =>
    let x := v.x - CAR_SPEED
    { v with x := if x < min_x - CAR_SIZE then max_x + CAR_SIZE else x }
  | .S =>
    let y := v.y + CAR_SPEED
    { v with y := if y > max_y + CAR_SIZE then min_y - CAR_SIZE else y }
  | .N =>
    let y := v.y - CAR_SPEED
    { v with y := if y < min_y - CAR_SIZE then max_y + CAR_SIZE else y }

/-- Coordinate of a vehicle on its axis of motion (`x` for E/W, `y` for N/S). -/
def Vehicle.axisPos (v : Vehicle) : ℚ :=
  match v.direction with
  | .E => v.x
  | .W => v.x
  | .N => v.y
  | .S => v.y

/-- Lower zone bound on a vehicle's axis of motion. -/
def Vehicle.axisMin (v : Vehicle) : ℚ :=
  match v.direction with
  | .E => v.zone_bounds.1
  | .W => v.zone_bounds.1
  | .N => v.zone_bounds.2.1
  | .S => v.zone_bounds.2.1

/-- Upper zone bound on a vehicle's axis of motion. -/
def Vehicle.axisMax (v : Vehicle) : ℚ :=
  match v.direction with
  | .E => v.zone_bounds.2.2.1
  | .W => v.zone_bounds.2.2.1
  | .N => v.zone_bounds.2.2.2
  | .S => v.zone_bounds.2.2.2

/-- Serialized vehicle state as produced by `Vehicle.get_state`. -/
structure VehicleState where
  id : String
  x : ℚ
  y : ℚ
  direction : Direction
deriving DecidableEq, Repr

/-- Method `Vehicle.get_state`. -/
def Vehicle.get_state (v : Vehicle) : VehicleState :=
  { id := v.id, x := v.x, y := v.y, direction := v.direction }

/-- Traffic light colors `'red'` and `'green'`. -/
inductive LightColor where
  | red
  | green
deriving DecidableEq, Repr

/-- Class `TrafficLight`. -/
structure TrafficLight where
  x : ℚ
  y : ℚ
  state : LightColor
  last_change_time : ℚ
  cycle_time : ℚ
deriving DecidableEq, Repr

/-- Method `TrafficLight.update`, with the wall-clock reading `time.time()` passed
explicitly as `now`. -/
def TrafficLight.update (now : ℚ) (l : TrafficLight) : TrafficLight :=
  if now - l.last_change_time > l.cycle_time then
    { l with state := if l.state = .red then .green else .red, last_change_time := now }
  else l

/-- Serialized traffic-light state as produced by `TrafficLight.get_state`. -/
structure LightState where
  x : ℚ
  y : ℚ
  state : LightColor
deriving DecidableEq, Repr

/-- Method `TrafficLight.get_state`. -/
def TrafficLight.get_state (l : TrafficLight) : LightState :=
  { x := l.x, y := l.y, state := l.state }

/-- Claim C5: for every vehicle whose coordinate on its axis of motion lies within
`[bound_min - CAR_SIZE, bound_max + CAR_SIZE]` before a tick, after one call to
`Vehicle.move` that coordinate still lies within the same interval, for each of the
four headings (wrap-around never produces an out-of-range coordinate). -/
theorem vehicle_move_wrap_invariant (v : Vehicle)
    (hb : v.axisMin ≤ v.axisMax)
    (h1 : v.axisMin - CAR_SIZE ≤ v.axisPos)
    (h2 : v.axisPos ≤ v.axisMax + CAR_SIZE) :
    v.axisMin - CAR_SIZE ≤ v.move.axisPos ∧ v.move.axisPos ≤ v.axisMax + CAR_SIZE := by
  obtain ⟨x, y, d, ⟨bx, by_, cx, cy⟩, i⟩ := v
  cases d <;>
    simp only [Vehicle.move, Vehicle.axisPos, Vehicle.axisMin, Vehicle.axisMax,
      CAR_SIZE, CAR_SPEED] at * <;>
    split_ifs with h <;>
    constructor <;>
    linarith

/-- Witness for C5: a concrete eastbound vehicle at the wrap boundary of the
standard zone. -/
def vehicleW : Vehicle :=
  { x := 199, y := 97, direction := .E, zone_bounds := (0, 0, 200, 200), id := "car_w" }

/-- Witness theorem for C5 at `vehicleW`. -/
theorem vehicle_move_wrap_invariant_witness :
    vehicleW.axisMin ≤ vehicleW.axisMax ∧
    vehicleW.axisMin - CAR_SIZE ≤ vehicleW.axisPos ∧
    vehicleW.axisPos ≤ vehicleW.axisMax + CAR_SIZE ∧
    (vehicleW.axisMin - CAR_SIZE ≤ vehicleW.move.axisPos ∧
      vehicleW.move.axisPos ≤ vehicleW.axisMax + CAR_SIZE) :=
  ⟨by norm_num [vehicleW, Vehicle.axisMin, Vehicle.axisMax],
    by norm_num [vehicleW, Vehicle.axisMin, Vehicle.axisPos, CAR_SIZE],
    by norm_num [vehicleW, Vehicle.axisMax, Vehicle.axisPos, CAR_SIZE],
    vehicle_move_wrap_invariant vehicleW
      (by norm_num [vehicleW, Vehicle.axisMin, Vehicle.axisMax])
      (by norm_num [vehicleW, Vehicle.axisMin, Vehicle.axisPos, CAR_SIZE])
      (by norm_num [vehicleW, Vehicle.axisMax, Vehicle.axisPos, CAR_SIZE])⟩

/-! Master-side data model: the module-level globals of the master process. -/

/-- Lookup in a Python dict modelled as an association list (first occurrence;
keys are unique in an actual dict). -/
def dictGet {α : Type} : List (String × α) → String → Option α
  | [], _ => none
  | p :: rest, k => if p.1 = k then some p.2 else dictGet rest k

/-- Assignment `d[k] = v` on a Python dict modelled as an association list:
replace the (first) binding of `k` in place, or append a new binding. -/
def dictSet {α : Type} : List (String × α) → String → α → List (String × α)
  | [], k, v => [(k, v)]
  | p :: rest, k, v => if p.1 = k then (k, v) :: rest else p :: dictSet rest k v

/-- Per-zone live data `{'vehicles': [...], 'traffic_light': ...}` as stored in a
worker record and in `full_simulation_grid_data`. -/
structure ZoneData where
  vehicles : List VehicleState
  traffic_light : Option LightState
deriving DecidableEq, Repr

/-- Entry of `registered_workers`:
`{'url': ..., 'last_seen': ..., 'car_count': ..., 'id': ..., 'current_zone_data': ...}`. -/
structure WorkerRecord where
  url : String
  last_seen : ℚ
  car_count : Int
  id : String
  current_zone_data : ZoneData
deriving DecidableEq, Repr

/-- Module-level mutable globals of the master process. -/
structure MasterState where
  registered_workers : List (String × WorkerRecord)
  total_cars_in_sim : Int
  simulation_step : Nat
  simulation_active : Bool
  graph_data_history : List (Nat × Int)
  full_simulation_grid_data : List (String × ZoneData)
deriving DecidableEq, Repr

/-- Sum of the `car_count` fields of all registered workers, the expression
`sum(data['car_count'] for data in registered_workers.values())`. -/
def sumCounts (ws : List (String × WorkerRecord)) : Int :=
  (ws.map fun p => p.2.car_count).sum

/-- Append to `graph_data_history`, a `collections.deque(maxlen=100)`: when full,
the oldest element is evicted. -/
def dequeAppend (h : List (Nat × Int)) (x : Nat × Int) : List (Nat × Int) :=
  if h.length < 100 then h ++ [x] else h.drop 1 ++ [x]

/-- HTTP responses returned by the master endpoints, by status code. -/
inductive HttpResult where
  | ok (msg : String)
  | badRequest (err : String)
  | notFound (err : String)
deriving DecidableEq, Repr

/-- Request body of `POST /register_worker`. Absent JSON fields and empty strings
are both falsy in the source check, so a missing field is modelled as `""`. -/
structure RegisterMsg where
  zone : String
  worker_url : String
  worker_id : String
deriving DecidableEq, Repr

/-- Endpoint `register_worker`: validate the body, then insert or replace the
record of the zone with a fresh one (`car_count = 0`, empty zone data). -/
def register_worker (st : MasterState) (m : RegisterMsg) (now : ℚ) :
    MasterState × HttpResult :=
  if m.zone = "" ∨ m.worker_url = "" ∨ m.worker_id = "" then
    (st, .badRequest "Missing zone, worker_url, or worker_id")
  else
    ({ st with
        registered_workers := dictSet st.registered_workers m.zone
          { url := m.worker_url
            last_seen := now
            car_count := 0
            id := m.worker_id
            current_zone_data := { vehicles := [], traffic_light := none } } },
      .ok ("Worker " ++ m.worker_id ++ " registered successfully"))

/-- Request body of `POST /traffic_update`. The source checks
`'car_count' not in data`, so presence of that field is an `Option`; for the
string fields, absent and empty are both falsy and modelled as `""`. -/
structure UpdateMsg where
  zone : String
  car_count : Option Int
  worker_id : String
  vehicles : List VehicleState
  traffic_light : Option LightState
deriving DecidableEq, Repr

/-- Endpoint `traffic_update`: validate the body; accept only if the zone is
registered and the reported worker id equals the registered one, updating the
record, the running total (as a delta) and the grid data; otherwise 404. -/
def traffic_update (st : MasterState) (m : UpdateMsg) (now : ℚ) :
    MasterState × HttpResult :=
  if m.zone = "" ∨ m.car_count = none ∨ m.worker_id = "" then
    (st, .badRequest "Missing zone, car_count, or worker_id")
  else
    match dictGet st.registered_workers m.zone with
    | some r =>
      if r.id = m.worker_id then
        let cc := m.car_count.getD 0
        let newData : ZoneData := { vehicles := m.vehicles, traffic_light := m.traffic_light }
        ({ st with
            registered_workers := dictSet st.registered_workers m.zone
              { r with car_count := cc, last_seen := now, current_zone_data := newData }
            total_cars_in_sim := st.total_cars_in_sim + (cc - r.car_count)
            full_simulation_grid_data := dictSet st.full_simulation_grid_data m.zone newData },
          .ok "Update received")
      else (st, .notFound "Worker not registered or ID mismatch")
    | none => (st, .notFound "Worker not registered or ID mismatch")

/-- Looking up the key that was just set returns the new value. -/
theorem dictGet_dictSet_self {α : Type} (d : List (String × α)) (k : String) (v : α) :
    dictGet (dictSet d k v) k = some v := by
  induction d with
  | nil => simp [dictGet, dictSet]
  | cons p rest ih =>
    by_cases h : p.1 = k
    · simp [dictGet, dictSet, h]
    · simp [dictGet, dictSet, h, ih]

/-- Unfolding lemma for `sumCounts` on a cons cell. -/
theorem sumCounts_cons (p : String × WorkerRecord) (l : List (String × WorkerRecord)) :
    sumCounts (p :: l) = p.2.car_count + sumCounts l := by
  simp [sumCounts]

/-- Effect of a dict assignment on the summed car counts: the new count replaces
the overwritten one (or is added outright when the key was absent). -/
theorem sumCounts_dictSet (ws : List (String × WorkerRecord)) (z : String)
    (r : WorkerRecord) :
    sumCounts (dictSet ws z r) =
      sumCounts ws + r.car_count - (((dictGet ws z).map fun w => w.car_count).getD 0) := by
  induction ws with
  | nil => simp [dictSet, dictGet, sumCounts]
  | cons p rest ih =>
    by_cases h : p.1 = z
    · simp [dictSet, dictGet, if_pos h, sumCounts_cons]
      omega
    · simp only [dictSet, dictGet, if_neg h, sumCounts_cons, ih]
      omega

/-- Claim C3: the update endpoint rejects with 404 any update whose zone is
unregistered or whose worker id differs from the registered one (in particular an
update carrying the pre-re-registration id), and on acceptance updates the
record's last-seen timestamp, last-reported count and snapshot. -/
theorem traffic_update_auth (st : MasterState) (m : UpdateMsg) (now now2 : ℚ)
    (r : WorkerRecord) (rm : RegisterMsg)
    (hz : m.zone ≠ "") (hc : m.car_count ≠ none) (hw : m.worker_id ≠ "") :
    (dictGet st.registered_workers m.zone = none →
      traffic_update st m now = (st, .notFound "Worker not registered or ID mismatch"))
    ∧ (dictGet st.registered_workers m.zone = some r → r.id ≠ m.worker_id →
      traffic_update st m now = (st, .notFound "Worker not registered or ID mismatch"))
    ∧ (rm.zone = m.zone → rm.worker_url ≠ "" → rm.worker_id ≠ "" →
      rm.worker_id ≠ m.worker_id →
      (traffic_update (register_worker st rm now2).1 m now).2 =
        .notFound "Worker not registered or ID mismatch")
    ∧ (dictGet st.registered_workers m.zone = some r → r.id = m.worker_id →
      (traffic_update st m now).2 = .ok "Update received" ∧
      dictGet (traffic_update st m now).1.registered_workers m.zone =
        some { r with
          car_count := m.car_count.getD 0
          last_seen := now
          current_zone_data := { vehicles := m.vehicles, traffic_light := m.traffic_light } }) := by
  refine ⟨?_, ?_, ?_, ?_⟩
  · intro h
    simp [traffic_update, hz, hc, hw, h]
  · intro h hid
    simp [traffic_update, hz, hc, hw, h, hid]
  · intro hzz hru hri hid
    have hrz : rm.zone ≠ "" := by
      rw [hzz]
      exact hz
    have hreg :
        (register_worker st rm now2).1.registered_workers =
          dictSet st.registered_workers rm.zone
            { url := rm.worker_url, last_seen := now2, car_count := 0, id := rm.worker_id,
              current_zone_data := { vehicles := [], traffic_light := none } } := by
      simp [register_worker, hrz, hru, hri]
    have hget :
        dictGet (register_worker st rm now2).1.registered_workers m.zone =
          some { url := rm.worker_url, last_seen := now2, car_count := 0, id := rm.worker_id,
                 current_zone_data := { vehicles := [], traffic_light := none } } := by
      rw [hreg, hzz]
      exact dictGet_dictSet_self _ _ _
    simp [traffic_update, hz, hc, hw, hget, hid]
  · intro h hid
    constructor
    · simp [traffic_update, hz, hc, hw, h, hid]
    · simp [traffic_update, hz, hc, hw, h, hid, dictGet_dictSet_self]

/-- Claim C9: a rejected update (unknown zone or id mismatch) leaves every piece
of master state exactly as it was. -/
theorem rejected_update_state_unchanged (st : MasterState) (m : UpdateMsg) (now : ℚ)
    (r : WorkerRecord)
    (hz : m.zone ≠ "") (hc : m.car_count ≠ none) (hw : m.worker_id ≠ "") :
    (dictGet st.registered_workers m.zone = none → (traffic_update st m now).1 = st)
    ∧ (dictGet st.registered_workers m.zone = some r → r.id ≠ m.worker_id →
      (traffic_update st m now).1 = st) := by
  constructor
  · intro h
    simp [traffic_update, hz, hc, hw, h]
  · intro h hid
    simp [traffic_update, hz, hc, hw, h, hid]

/-- Claim C10: registering (or re-registering) a zone replaces its record with a
fresh one (`car_count = 0`, empty snapshot), so the summed aggregate total drops
by exactly the count the zone last reported. -/
theorem register_resets_record_and_total (st : MasterState) (m : RegisterMsg) (now : ℚ)
    (hz : m.zone ≠ "") (hu : m.worker_url ≠ "") (hi : m.worker_id ≠ "") :
    dictGet (register_worker st m now).1.registered_workers m.zone =
      some { url := m.worker_url, last_seen := now, car_count := 0, id := m.worker_id,
             current_zone_data := { vehicles := [], traffic_light := none } }
    ∧ sumCounts (register_worker st m now).1.registered_workers =
      sumCounts st.registered_workers -
        (((dictGet st.registered_workers m.zone).map fun w => w.car_count).getD 0) := by
  constructor
  · simp only [register_worker, hz, hu, hi]
    simp [hz, hu, hi, dictGet_dictSet_self]
  · simp [register_worker, hz, hu, hi, sumCounts_dictSet]

/-! Concrete master states used by the witness theorems. -/

/-- Concrete empty zone data. -/
def emptyZD : ZoneData := { vehicles := [], traffic_light := none }

/-- Concrete worker record for zone North, instance `worker_1`, five cars. -/
def recN : WorkerRecord :=
  { url := "http://w1", last_seen := 1, car_count := 5, id := "worker_1",
    current_zone_data := emptyZD }

/-- Concrete master state with one registered zone. -/
def stW : MasterState :=
  { registered_workers := [("North", recN)]
    total_cars_in_sim := 5
    simulation_step := 3
    simulation_active := true
    graph_data_history := [(3, 5)]
    full_simulation_grid_data := [("North", emptyZD)] }

/-- Concrete update from the registered instance. -/
def updGood : UpdateMsg :=
  { zone := "North", car_count := some 7, worker_id := "worker_1",
    vehicles := [], traffic_light := none }

/-- Concrete update for a zone that was never registered. -/
def updUnknown : UpdateMsg :=
  { zone := "South", car_count := some 7, worker_id := "worker_1",
    vehicles := [], traffic_light := none }

/-- Concrete update carrying a mismatching instance id. -/
def updStale : UpdateMsg :=
  { zone := "North", car_count := some 7, worker_id := "worker_0",
    vehicles := [], traffic_light := none }

/-- Concrete re-registration of North under a new instance id. -/
def regNew : RegisterMsg :=
  { zone := "North", worker_url := "http://w2", worker_id := "worker_2" }

/-- Witness theorem for C3: unknown zone and stale id are rejected with 404, an
update with the pre-re-registration id is rejected after `regNew`, and the
matching update is accepted and rewrites the record. -/
theorem traffic_update_auth_witness :
    traffic_update stW updUnknown 2 =
      (stW, .notFound "Worker not registered or ID mismatch")
    ∧ traffic_update stW updStale 2 =
      (stW, .notFound "Worker not registered or ID mismatch")
    ∧ (traffic_update (register_worker stW regNew 2).1 updGood 3).2 =
      .notFound "Worker not registered or ID mismatch"
    ∧ ((traffic_update stW updGood 2).2 = .ok "Update received" ∧
      dictGet (traffic_update stW updGood 2).1.registered_workers "North" =
        some { recN with
          car_count := 7
          last_seen := 2
          current_zone_data := { vehicles := [], traffic_light := none } }) := by
  refine ⟨?_, ?_, ?_, ?_⟩
  · exact (traffic_update_auth stW updUnknown 2 0 recN regNew (by decide) (by decide)
      (by decide)).1 (by decide)
  · exact (traffic_update_auth stW updStale 2 0 recN regNew (by decide) (by decide)
      (by decide)).2.1 (by decide) (by decide)
  · exact (traffic_update_auth stW updGood 3 2 recN regNew (by decide) (by decide)
      (by decide)).2.2.1 rfl (by decide) (by decide) (by decide)
  · exact (traffic_update_auth stW updGood 2 0 recN regNew (by decide) (by decide)
      (by decide)).2.2.2 (by decide) (by decide)

/-- Witness theorem for C9: the two rejected updates leave `stW` unchanged. -/
theorem rejected_update_state_unchanged_witness :
    (traffic_update stW updUnknown 2).1 = stW ∧ (traffic_update stW updStale 2).1 = stW := by
  constructor
  · exact (rejected_update_state_unchanged stW updUnknown 2 recN (by decide) (by decide)
      (by decide)).1 (by decide)
  · exact (rejected_update_state_unchanged stW updStale 2 recN (by decide) (by decide)
      (by decide)).2 (by decide) (by decide)

/-- Witness theorem for C10: re-registering North (previous count 5, new id)
yields a fresh zero-count record and drops the summed total by 5. -/
theorem register_resets_record_and_total_witness :
    dictGet (register_worker stW regNew 2).1.registered_workers "North" =
      some { url := "http://w2", last_seen := 2, car_count := 0, id := "worker_2",
             current_zone_data := { vehicles := [], traffic_light := none } }
    ∧ sumCounts (register_worker stW regNew 2).1.registered_workers =
      sumCounts stW.registered_workers -
        (((dictGet stW.registered_workers "North").map fun w => w.car_count).getD 0) :=
  register_resets_record_and_total stW regNew 2 (by decide) (by decide) (by decide)

/-! Bounded history (claim C4). -/

/-- History contents after appending a whole list of samples to an empty
`collections.deque(maxlen=100)`. -/
def histAfter (samples : List (Nat × Int)) : List (Nat × Int) :=
  samples.foldl dequeAppend []

/-- Appending to the bounded history always keeps exactly the most recent up to
100 samples, in append order. -/
theorem histAfter_eq_drop (samples : List (Nat × Int)) :
    histAfter samples = samples.drop (samples.length - 100) := by
  induction samples using List.reverseRecOn with
  | nil => simp [histAfter]
  | append_singleton ys x ih =>
    have hstep : histAfter (ys ++ [x]) = dequeAppend (histAfter ys) x := by
      simp [histAfter, List.foldl_append]
    rw [hstep, ih, dequeAppend]
    have hlen : (ys.drop (ys.length - 100)).length = ys.length - (ys.length - 100) :=
      List.length_drop _ _
    by_cases hy : ys.length < 100
    · have h1 : ys.length - 100 = 0 := by omega
      have h2 : ys.length + 1 - 100 = 0 := by omega
      rw [if_pos (by omega)]
      simp [h1, h2]
    · rw [if_neg (by omega)]
      rw [List.drop_drop]
      have h3 : ys.length - 100 + 1 = ys.length - 99 := by omega
      have h4 : (ys ++ [x]).length - 100 = ys.length - 99 := by
        simp only [List.length_append, List.length_cons, List.length_nil]
        omega
      rw [h3, h4, List.drop_append_eq_append_drop]
      have h5 : ys.length - 99 - ys.length = 0 := by omega
      simp [h5]

/-- Claim C4: the history never holds more than 100 entries and evicts FIFO;
after 150 appended samples it contains exactly the last 100, in append order. -/
theorem history_bounded_and_fifo (samples : List (Nat × Int)) :
    (histAfter samples).length ≤ 100
    ∧ histAfter samples = samples.drop (samples.length - 100)
    ∧ (samples.length = 150 → histAfter samples = samples.drop 50) := by
  refine ⟨?_, histAfter_eq_drop samples, ?_⟩
  · rw [histAfter_eq_drop, List.length_drop]
    omega
  · intro h
    rw [histAfter_eq_drop, h]

/-- Concrete list of 150 samples. -/
def samples150 : List (Nat × Int) :=
  (List.range 150).map fun i => (i, (i : Int))

/-- Witness theorem for C4 at the concrete 150-sample list. -/
theorem history_bounded_and_fifo_witness :
    samples150.length = 150 ∧ histAfter samples150 = samples150.drop 50 :=
  ⟨by simp [samples150], (history_bounded_and_fifo samples150).2.2 (by simp [samples150])⟩

/-! Coordinator cycle (claims C1 and C2).

One iteration of the `while` body of `master_simulation_loop`: increment the
global step counter, fan out `POST /simulate_step` to every registered worker
(each worker that answers successfully posts a `traffic_update` back to the
master — collected in `resps` in arrival order; a worker that fails contributes
nothing), then recompute the total as the sum over the registry and append
`(simulation_step, total)` to the bounded history. The `/simulate_step` handler
runs in the worker process and touches only worker-process globals. -/

/-- Effect on the master registry of the sequence of `traffic_update` calls that
arrive during one cycle. -/
def applyUpdates (st : MasterState) (resps : List (UpdateMsg × ℚ)) : MasterState :=
  resps.foldl (fun s p => (traffic_update s p.1 p.2).1) st

/-- Registry-only view of one `traffic_update` call (helper for stating that the
rest of the endpoint is a function of the registry alone). -/
def updWorkers (ws : List (String × WorkerRecord)) (m : UpdateMsg) (now : ℚ) :
    List (String × WorkerRecord) :=
  if m.zone = "" ∨ m.car_count = none ∨ m.worker_id = "" then ws
  else
    match dictGet ws m.zone with
    | some r =>
      if r.id = m.worker_id then
        let cc := m.car_count.getD 0
        let newData : ZoneData := { vehicles := m.vehicles, traffic_light := m.traffic_light }
        dictSet ws m.zone
          { r with car_count := cc, last_seen := now, current_zone_data := newData }
      else ws
    | none => ws

/-- One coordinator cycle of `master_simulation_loop`. -/
def master_cycle (st : MasterState) (resps : List (UpdateMsg × ℚ)) : MasterState :=
  let st1 := { st with simulation_step := st.simulation_step + 1 }
  let st2 := applyUpdates st1 resps
  { st2 with
      graph_data_history :=
        dequeAppend st2.graph_data_history
          (st2.simulation_step, sumCounts st2.registered_workers) }

/-- Fields of the master state that a `traffic_update` call never touches. -/
theorem traffic_update_preserves (st : MasterState) (m : UpdateMsg) (now : ℚ) :
    (traffic_update st m now).1.simulation_step = st.simulation_step
    ∧ (traffic_update st m now).1.graph_data_history = st.graph_data_history
    ∧ (traffic_update st m now).1.simulation_active = st.simulation_active := by
  by_cases hC : m.zone = "" ∨ m.car_count = none ∨ m.worker_id = ""
  · simp [traffic_update, hC]
  · simp only [traffic_update, if_neg hC]
    cases hg : dictGet st.registered_workers m.zone with
    | none => exact ⟨rfl, rfl, rfl⟩
    | some r =>
      by_cases hid : r.id = m.worker_id
      · simp [hid]
      · simp [hid]

/-- Resulting registry of a `traffic_update` call is a function of the incoming
registry alone (in particular, of nothing that depends on `total_cars_in_sim`). -/
theorem traffic_update_workers_eq (st : MasterState) (m : UpdateMsg) (now : ℚ) :
    (traffic_update st m now).1.registered_workers = updWorkers st.registered_workers m now := by
  by_cases hC : m.zone = "" ∨ m.car_count = none ∨ m.worker_id = ""
  · simp [traffic_update, updWorkers, hC]
  · simp only [traffic_update, updWorkers, if_neg hC]
    cases hg : dictGet st.registered_workers m.zone with
    | none => rfl
    | some r =>
      by_cases hid : r.id = m.worker_id
      · simp [hid]
      · simp [hid]

/-- Step counter, history and active flag are untouched by a whole cycle's worth
of incoming updates. -/
theorem applyUpdates_preserves (resps : List (UpdateMsg × ℚ)) (st : MasterState) :
    (applyUpdates st resps).simulation_step = st.simulation_step
    ∧ (applyUpdates st resps).graph_data_history = st.graph_data_history
    ∧ (applyUpdates st resps).simulation_active = st.simulation_active := by
  induction resps generalizing st with
  | nil => exact ⟨rfl, rfl, rfl⟩
  | cons a l ih =>
    have h1 := ih ((traffic_update st a.1 a.2).1)
    have h2 := traffic_update_preserves st a.1 a.2
    exact ⟨h1.1.trans h2.1, h1.2.1.trans h2.2.1, h1.2.2.trans h2.2.2⟩

/-- Registry after a cycle's worth of updates is a fold over the incoming
registry alone. -/
theorem applyUpdates_workers (resps : List (UpdateMsg × ℚ)) (st : MasterState) :
    (applyUpdates st resps).registered_workers =
      resps.foldl (fun ws p => updWorkers ws p.1 p.2) st.registered_workers := by
  induction resps generalizing st with
  | nil => rfl
  | cons a l ih =>
    have h1 := ih ((traffic_update st a.1 a.2).1)
    have h2 := traffic_update_workers_eq st a.1 a.2
    simp only [applyUpdates, List.foldl_cons] at *
    rw [h1, h2]

/-- Appending to the bounded deque, the appended sample is always the last one. -/
theorem dequeAppend_getLast (h : List (Nat × Int)) (x : Nat × Int) :
    (dequeAppend h x).getLast? = some x := by
  unfold dequeAppend
  split <;> simp

/-- Claim C2: the global step counter increases by exactly one per coordinator
cycle (also when every worker call failed, `resps = []`), and the only master
endpoints workers invoke (`traffic_update`, `register_worker`) never change it. -/
theorem step_counter_coordinator_only (st : MasterState) (resps : List (UpdateMsg × ℚ))
    (m : UpdateMsg) (rm : RegisterMsg) (now : ℚ) :
    (master_cycle st resps).simulation_step = st.simulation_step + 1
    ∧ (master_cycle st []).simulation_step = st.simulation_step + 1
    ∧ (traffic_update st m now).1.simulation_step = st.simulation_step
    ∧ (register_worker st rm now).1.simulation_step = st.simulation_step := by
  refine ⟨?_, ?_, (traffic_update_preserves st m now).1, ?_⟩
  · simp [master_cycle, (applyUpdates_preserves resps _).1]
  · simp [master_cycle, applyUpdates]
  · unfold register_worker
    split <;> rfl

/-- Claim C1: the sample a cycle records into the history is
`(step, full re-sum of every registered worker's last-reported count)` — stale
counts of workers that failed this cycle included (`resps = []` case) — and the
recorded value does not depend on the running-delta variable `total_cars_in_sim`. -/
theorem cycle_history_records_full_resum (st : MasterState)
    (resps : List (UpdateMsg × ℚ)) (t : Int) :
    (master_cycle st resps).graph_data_history.getLast? =
      some (st.simulation_step + 1, sumCounts (master_cycle st resps).registered_workers)
    ∧ (master_cycle st []).graph_data_history.getLast? =
      some (st.simulation_step + 1, sumCounts st.registered_workers)
    ∧ (master_cycle { st with total_cars_in_sim := t } resps).graph_data_history.getLast? =
      (master_cycle st resps).graph_data_history.getLast? := by
  refine ⟨?_, ?_, ?_⟩
  · simp [master_cycle, dequeAppend_getLast, (applyUpdates_preserves resps _).1]
  · simp [master_cycle, applyUpdates, dequeAppend_getLast]
  · simp [master_cycle, dequeAppend_getLast, (applyUpdates_preserves resps _).1,
      applyUpdates_workers]

/-! Worker-side tick (claim C6): the `/simulate_step` handler
`worker_simulate_step`, which runs in the worker process. -/

/-- Module-level mutable globals of a worker process. -/
structure WorkerState where
  simulation_step : Nat
  worker_vehicles : List Vehicle
  worker_traffic_light : Option TrafficLight
deriving DecidableEq, Repr

/-- Fixed zone bounds of a worker, `(0, 0, ZONE_SIZE, ZONE_SIZE)`. -/
def current_zone_bounds : ℚ × ℚ × ℚ × ℚ := (0, 0, ZONE_SIZE, ZONE_SIZE)

/-- Determinized random draws of one worker tick: whether
`random.random() < 0.4` (spawn), the uniformly chosen heading, the id suffix
`random.randint(0, 1000)`, whether `random.random() < 0.02` (attrition), and the
raw draw behind `random.randint(0, len - 1)` (reduced mod the length). -/
structure StepRandom where
  spawnRoll : Bool
  spawnDir : Direction
  spawnTag : Nat
  removeRoll : Bool
  removeIdx : Nat
deriving DecidableEq, Repr

/-- Spawn point just outside the zone edge implied by the chosen heading. -/
def spawnPos : Direction → ℚ × ℚ
  | .E => (-CAR_SIZE, ZONE_SIZE / 2 - CAR_SIZE / 2)
  | .W => (ZONE_SIZE, ZONE_SIZE / 2 - CAR_SIZE / 2)
  | .S => (ZONE_SIZE / 2 - CAR_SIZE / 2, -CAR_SIZE)
  | .N => (ZONE_SIZE / 2 - CAR_SIZE / 2, ZONE_SIZE)

/-- Vehicle built by the spawn branch of `worker_simulate_step`. -/
def spawnVehicle (wid : String) (master_step : Nat) (r : StepRandom) : Vehicle :=
  { x := (spawnPos r.spawnDir).1
    y := (spawnPos r.spawnDir).2
    direction := r.spawnDir
    zone_bounds := current_zone_bounds
    id := wid ++ "_car_" ++ toString master_step ++ "_" ++ toString r.spawnTag }

/-- Endpoint `worker_simulate_step`: adopt the master's step number, update the
light, move every vehicle, then possibly spawn one vehicle (only while strictly
below `MAX_CARS_PER_ZONE`) and possibly remove one (only while strictly above 20). -/
def worker_simulate_step (ws : WorkerState) (wid : String) (master_step : Nat)
    (now : ℚ) (r : StepRandom) : WorkerState :=
  let light := ws.worker_traffic_light.map (TrafficLight.update now)
  let moved := ws.worker_vehicles.map Vehicle.move
  let spawned :=
    if r.spawnRoll = true ∧ moved.length < MAX_CARS_PER_ZONE then
      moved ++ [spawnVehicle wid master_step r]
    else moved
  let final :=
    if r.removeRoll = true ∧ spawned.length > 20 then
      spawned.eraseIdx (r.removeIdx % spawned.length)
    else spawned
  { simulation_step := master_step, worker_vehicles := final, worker_traffic_light := light }

/-- List-level computation of the vehicle count through the spawn and attrition
stages of one tick. -/
theorem stepListLength (l : List Vehicle) (v : Vehicle) (sr rr : Bool) (k : Nat) :
    (if rr = true ∧
        (if sr = true ∧ l.length < MAX_CARS_PER_ZONE then l ++ [v] else l).length > 20 then
      ((if sr = true ∧ l.length < MAX_CARS_PER_ZONE then l ++ [v] else l).eraseIdx
        (k % (if sr = true ∧ l.length < MAX_CARS_PER_ZONE then l ++ [v] else l).length)).length
    else (if sr = true ∧ l.length < MAX_CARS_PER_ZONE then l ++ [v] else l).length) =
      if rr = true ∧
          (if sr = true ∧ l.length < MAX_CARS_PER_ZONE then l.length + 1 else l.length) >
            20 then
        (if sr = true ∧ l.length < MAX_CARS_PER_ZONE then l.length + 1 else l.length) - 1
      else if sr = true ∧ l.length < MAX_CARS_PER_ZONE then l.length + 1 else l.length := by
  have hl : (l ++ [v]).length = l.length + 1 := by simp
  by_cases h1 : sr = true ∧ l.length < MAX_CARS_PER_ZONE
  · simp only [if_pos h1, hl]
    by_cases h2 : rr = true ∧ l.length + 1 > 20
    · rw [if_pos h2, if_pos h2]
      rw [List.length_eraseIdx_of_lt (by rw [hl]; exact Nat.mod_lt _ (by omega))]
      rw [hl]
    · rw [if_neg h2, if_neg h2]
  · simp only [if_neg h1]
    by_cases h2 : rr = true ∧ l.length > 20
    · rw [if_pos h2, if_pos h2]
      rw [List.length_eraseIdx_of_lt (Nat.mod_lt _ (by omega))]
    · rw [if_neg h2, if_neg h2]

/-- Exact vehicle count after one worker tick. -/
theorem worker_step_length (ws : WorkerState) (wid : String) (master_step : Nat)
    (now : ℚ) (r : StepRandom) :
    (worker_simulate_step ws wid master_step now r).worker_vehicles.length =
      if r.removeRoll = true ∧
          (if r.spawnRoll = true ∧ ws.worker_vehicles.length < MAX_CARS_PER_ZONE then
            ws.worker_vehicles.length + 1
          else ws.worker_vehicles.length) > 20 then
        (if r.spawnRoll = true ∧ ws.worker_vehicles.length < MAX_CARS_PER_ZONE then
          ws.worker_vehicles.length + 1
        else ws.worker_vehicles.length) - 1
      else
        if r.spawnRoll = true ∧ ws.worker_vehicles.length < MAX_CARS_PER_ZONE then
          ws.worker_vehicles.length + 1
        else ws.worker_vehicles.length := by
  have h := stepListLength (ws.worker_vehicles.map Vehicle.move)
    (spawnVehicle wid master_step r) r.spawnRoll r.removeRoll r.removeIdx
  simp only [List.length_map] at h
  simpa only [worker_simulate_step, List.length_map, apply_ite List.length] using h

/-- Claim C6: a tick never pushes the vehicle count above `MAX_CARS_PER_ZONE`;
with no attrition draw, a spawn draw below capacity adds exactly one vehicle and a
spawn draw at capacity adds none. -/
theorem worker_step_capacity (ws : WorkerState) (wid : String) (master_step : Nat)
    (now : ℚ) (r : StepRandom)
    (h : ws.worker_vehicles.length ≤ MAX_CARS_PER_ZONE) :
    (worker_simulate_step ws wid master_step now r).worker_vehicles.length ≤
      MAX_CARS_PER_ZONE
    ∧ (r.spawnRoll = true → ws.worker_vehicles.length < MAX_CARS_PER_ZONE →
      r.removeRoll = false →
      (worker_simulate_step ws wid master_step now r).worker_vehicles.length =
        ws.worker_vehicles.length + 1)
    ∧ (ws.worker_vehicles.length = MAX_CARS_PER_ZONE → r.removeRoll = false →
      (worker_simulate_step ws wid master_step now r).worker_vehicles.length =
        ws.worker_vehicles.length) := by
  have hlen := worker_step_length ws wid master_step now r
  refine ⟨?_, ?_, ?_⟩
  · rw [hlen]
    by_cases hS : r.spawnRoll = true ∧ ws.worker_vehicles.length < MAX_CARS_PER_ZONE
    · simp only [if_pos hS]
      have hlt := hS.2
      by_cases hR : r.removeRoll = true ∧ ws.worker_vehicles.length + 1 > 20
      · rw [if_pos hR]
        omega
      · rw [if_neg hR]
        omega
    · simp only [if_neg hS]
      by_cases hR : r.removeRoll = true ∧ ws.worker_vehicles.length > 20
      · rw [if_pos hR]
        omega
      · rw [if_neg hR]
        omega
  · intro hs hlt hr
    rw [hlen]
    simp only [if_pos (And.intro hs hlt)]
    rw [if_neg (fun hc => by simp [hr] at hc)]
  · intro heq hr
    have hS : ¬(r.spawnRoll = true ∧ ws.worker_vehicles.length < MAX_CARS_PER_ZONE) :=
      fun hc => absurd hc.2 (by omega)
    rw [hlen]
    simp only [if_neg hS]
    rw [if_neg (fun hc => by simp [hr] at hc)]

/-- Concrete worker state with a single vehicle. -/
def wsW : WorkerState :=
  { simulation_step := 3, worker_vehicles := [vehicleW], worker_traffic_light := none }

/-- Concrete random draws: spawn, no attrition. -/
def rW : StepRandom :=
  { spawnRoll := true, spawnDir := .N, spawnTag := 17, removeRoll := false, removeIdx := 0 }

/-- Witness theorem for C6: ticking the one-vehicle worker spawns exactly one
vehicle and stays within capacity. -/
theorem worker_step_capacity_witness :
    wsW.worker_vehicles.length ≤ MAX_CARS_PER_ZONE ∧
    (worker_simulate_step wsW "worker_9" 4 10 rW).worker_vehicles.length ≤
      MAX_CARS_PER_ZONE ∧
    (worker_simulate_step wsW "worker_9" 4 10 rW).worker_vehicles.length =
      wsW.worker_vehicles.length + 1 :=
  ⟨by decide,
    (worker_step_capacity wsW "worker_9" 4 10 rW (by decide)).1,
    (worker_step_capacity wsW "worker_9" 4 10 rW (by decide)).2.1 rfl (by decide) rfl⟩

/-! SSE stream endpoint `stream_data` (claim C7).

The generator loop wakes every 0.5 s and reads the master globals; `obs` is the
sequence of master states it observes at those wake-ups. `last_step_sent` starts
at `-1`; an element is emitted only when the step counter has advanced past the
step recorded at the previous emission (or on the very first observation), and
the first emitted payload is tagged `initial_data`. -/

/-- Per-worker details copied into the payload. -/
structure WorkerDetails where
  url : String
  last_seen : ℚ
  car_count : Int
  id : String
deriving DecidableEq, Repr

/-- One emitted SSE payload. -/
structure Emission where
  type : String
  status : String
  step : Nat
  total_cars : Int
  num_workers : Nat
  history : List (Nat × Int)
  zone_data : List (String × ZoneData)
  registered_workers : List (String × WorkerDetails)
deriving DecidableEq, Repr

/-- Projection of a registry entry to the serialized worker details. -/
def workerDetails (p : String × WorkerRecord) : String × WorkerDetails :=
  (p.1, { url := p.2.url, last_seen := p.2.last_seen, car_count := p.2.car_count,
          id := p.2.id })

/-- Payload built from the observed master state; the total is re-summed from the
registry and the full history, grid data and registry details are included. -/
def mkPayload (st : MasterState) (first : Bool) : Emission :=
  { type := if first then "initial_data" else "update"
    status := if st.simulation_active then "Active" else "Inactive"
    step := st.simulation_step
    total_cars := sumCounts st.registered_workers
    num_workers := st.registered_workers.length
    history := st.graph_data_history
    zone_data := st.full_simulation_grid_data
    registered_workers := st.registered_workers.map workerDetails }

/-- Generator loop of the `stream_data` endpoint, with `last_step_sent` as the
accumulator. -/
def streamGo : Int → List MasterState → List Emission
  | _, [] => []
  | last, st :: rest =>
    if (st.simulation_step : Int) > last ∨ (st.simulation_step = 0 ∧ last = -1) then
      mkPayload st (last == -1) :: streamGo (st.simulation_step : Int) rest
    else streamGo last rest

/-- Endpoint `stream_data`: the sequence of payloads one subscriber receives from
the observations `obs`. -/
def stream_data (obs : List MasterState) : List Emission :=
  streamGo (-1) obs

/-- The first observation always produces an emission, tagged as initial. -/
theorem stream_data_cons (st : MasterState) (rest : List MasterState) :
    stream_data (st :: rest) =
      mkPayload st true :: streamGo (st.simulation_step : Int) rest := by
  have hnn := Int.natCast_nonneg st.simulation_step
  show (if (st.simulation_step : Int) > -1 ∨ (st.simulation_step = 0 ∧ (-1 : Int) = -1) then
      mkPayload st ((-1 : Int) == -1) :: streamGo (st.simulation_step : Int) rest
    else streamGo (-1) rest) = _
  rw [if_pos (Or.inl (by omega : (st.simulation_step : Int) > -1))]
  rfl

/-- Once a nonnegative step has been sent, every later emission is tagged
`update` and carries a strictly larger step, and consecutive emissions have
strictly increasing steps. -/
theorem streamGo_inv (obs : List MasterState) :
    ∀ last : Int, 0 ≤ last →
      (∀ e ∈ streamGo last obs, last < (e.step : Int) ∧ e.type = "update")
      ∧ List.Chain' (fun a b => a.step < b.step) (streamGo last obs) := by
  induction obs with
  | nil =>
    intro last _
    simp [streamGo]
  | cons st rest ih =>
    intro last hlast
    by_cases hc : (st.simulation_step : Int) > last ∨ (st.simulation_step = 0 ∧ last = -1)
    · have hstep : last < (st.simulation_step : Int) := by
        rcases hc with h | h
        · exact h
        · omega
      have hfirst : (last == -1) = false := by
        simp only [beq_eq_false_iff_ne, ne_eq]
        omega
      obtain ⟨ihMem, ihChain⟩ :=
        ih (st.simulation_step : Int) (Int.natCast_nonneg _)
      rw [streamGo, if_pos hc]
      constructor
      · intro e he
        rcases List.mem_cons.mp he with rfl | he2
        · exact ⟨hstep, by simp [mkPayload, hfirst]⟩
        · obtain ⟨h1, h2⟩ := ihMem e he2
          exact ⟨hstep.trans h1, h2⟩
      · refine List.chain'_cons'.mpr ⟨?_, ihChain⟩
        intro b hb
        have hbmem : b ∈ streamGo (st.simulation_step : Int) rest :=
          List.mem_of_mem_head? hb
        have h1 := (ihMem b hbmem).1
        have : (st.simulation_step : Int) < (b.step : Int) := h1
        simpa [mkPayload] using (by exact_mod_cast this : st.simulation_step < b.step)
    · rw [streamGo, if_neg hc]
      exact ih last hlast

/-- Every emitted element is the payload built from one of the observed states. -/
theorem streamGo_payload (obs : List MasterState) :
    ∀ last : Int, ∀ e ∈ streamGo last obs, ∃ st ∈ obs, ∃ b, e = mkPayload st b := by
  induction obs with
  | nil =>
    intro last e he
    simp [streamGo] at he
  | cons st rest ih =>
    intro last e he
    by_cases hc : (st.simulation_step : Int) > last ∨ (st.simulation_step = 0 ∧ last = -1)
    · rw [streamGo, if_pos hc] at he
      rcases List.mem_cons.mp he with rfl | he2
      · exact ⟨st, List.mem_cons_self st rest, (last == -1), rfl⟩
      · obtain ⟨st2, hst2, b, hb⟩ := ih (st.simulation_step : Int) e he2
        exact ⟨st2, List.mem_cons_of_mem st hst2, b, hb⟩
    · rw [streamGo, if_neg hc] at he
      obtain ⟨st2, hst2, b, hb⟩ := ih last e he
      exact ⟨st2, List.mem_cons_of_mem st hst2, b, hb⟩

/-- Claim C7: the first element delivered on a stream connection is tagged
`initial_data`; every later element is emitted only after the step counter
advanced past the previous emission (strictly increasing steps, tag `update`);
and every emitted element carries the full current state of its observation
(re-summed total, full history, full grid data, worker count), not a delta. -/
theorem stream_first_initial_then_updates (obs : List MasterState) :
    ((stream_data obs).head?.all fun e => e.type == "initial_data") = true
    ∧ List.Chain' (fun a b => a.step < b.step) (stream_data obs)
    ∧ (∀ e ∈ (stream_data obs).tail, e.type = "update")
    ∧ ∀ e ∈ stream_data obs, ∃ st ∈ obs,
        e.step = st.simulation_step ∧
        e.total_cars = sumCounts st.registered_workers ∧
        e.history = st.graph_data_history ∧
        e.zone_data = st.full_simulation_grid_data ∧
        e.num_workers = st.registered_workers.length := by
  refine ⟨?_, ?_, ?_, ?_⟩
  · cases obs with
    | nil => rfl
    | cons st rest =>
      rw [stream_data_cons]
      simp [mkPayload]
  · cases obs with
    | nil => simp [stream_data, streamGo]
    | cons st rest =>
      rw [stream_data_cons]
      obtain ⟨ihMem, ihChain⟩ := streamGo_inv rest (st.simulation_step : Int)
        (Int.natCast_nonneg _)
      refine List.chain'_cons'.mpr ⟨?_, ihChain⟩
      intro b hb
      have hbmem : b ∈ streamGo (st.simulation_step : Int) rest :=
        List.mem_of_mem_head? hb
      have h1 := (ihMem b hbmem).1
      simpa [mkPayload] using (by exact_mod_cast h1 : st.simulation_step < b.step)
  · cases obs with
    | nil => simp [stream_data, streamGo]
    | cons st rest =>
      rw [stream_data_cons]
      intro e he
      exact ((streamGo_inv rest (st.simulation_step : Int) (Int.natCast_nonneg _)).1
        e he).2
  · intro e he
    obtain ⟨st, hst, b, hb⟩ := streamGo_payload obs (-1) e he
    subst hb
    exact ⟨st, hst, rfl, rfl, rfl, rfl, rfl⟩

/-- Concrete observed master state at step 0 with no workers. -/
def sA : MasterState :=
  { registered_workers := [], total_cars_in_sim := 0, simulation_step := 0,
    simulation_active := true, graph_data_history := [],
    full_simulation_grid_data := [] }

/-- Concrete observed master state after one cycle. -/
def sB : MasterState :=
  { registered_workers := [], total_cars_in_sim := 0, simulation_step := 1,
    simulation_active := true, graph_data_history := [(1, 0)],
    full_simulation_grid_data := [] }

/-- Concrete observation sequence: step 0, then step 1 twice (the unchanged third
observation is skipped by the stream). -/
def obsW : List MasterState := [sA, sB, sB]

/-- Witness theorem for C7: the second emitted payload of `obsW` is the full
payload of the observed state `sB`. -/
theorem stream_first_initial_then_updates_witness :
    ∃ st ∈ obsW,
      (mkPayload sB false).step = st.simulation_step ∧
      (mkPayload sB false).total_cars = sumCounts st.registered_workers ∧
      (mkPayload sB false).history = st.graph_data_history ∧
      (mkPayload sB false).zone_data = st.full_simulation_grid_data ∧
      (mkPayload sB false).num_workers = st.registered_workers.length :=
  (stream_first_initial_then_updates obsW).2.2.2 (mkPayload sB false) (by decide)

/-! Startup of `master_simulation_loop` (claim C8). -/

/-- Control-flow outcome of the coordinator after the startup wait. -/
inductive ExitAction where
  | processExit (code : Nat)
  | returnFromLoop
  | proceedToCycles
deriving DecidableEq, Repr

/-- Startup decision of `master_simulation_loop` after the bounded registration
wait (the wait itself only sleeps and polls the registry): with an empty registry
the function prints a diagnostic, clears `simulation_active` and returns from the
loop function — the cycle loop is never entered and no `sys.exit` is reached, so
the process keeps serving; otherwise it proceeds to cycling. -/
def master_startup_check (st : MasterState) : MasterState × ExitAction × List String :=
  if st.registered_workers.isEmpty then
    ({ st with simulation_active := false }, .returnFromLoop,
      ["Master: No workers registered. Exiting simulation."])
  else (st, .proceedToCycles, [])

/-- Counterexample for C8 as stated: on the concrete empty-registry state the
coordinator performs zero cycles (step stays 0 and the history stays empty), but
the outcome is a plain return from the loop function — not a process termination
with a non-zero exit status. -/
theorem startup_timeout_counterexample :
    (master_startup_check sA).2.1 = ExitAction.returnFromLoop
    ∧ (master_startup_check sA).2.1 ≠ ExitAction.processExit 1
    ∧ (master_startup_check sA).1.simulation_step = 0
    ∧ (master_startup_check sA).1.graph_data_history = [] := by
  refine ⟨by decide, by decide, by decide, by decide⟩

/-- Claim C8 as amended: if the startup wait ends with zero registered workers,
the coordinator performs zero cycles (the step counter and the history are left
untouched), prints the diagnostic, marks the simulation inactive, and returns
from the simulation loop without terminating the process or setting an exit
status. -/
theorem startup_timeout_zero_workers (st : MasterState)
    (h : st.registered_workers = []) :
    master_startup_check st =
      ({ st with simulation_active := false }, ExitAction.returnFromLoop,
        ["Master: No workers registered. Exiting simulation."])
    ∧ (master_startup_check st).1.simulation_step = st.simulation_step
    ∧ (master_startup_check st).1.graph_data_history = st.graph_data_history := by
  refine ⟨?_, ?_, ?_⟩ <;> simp [master_startup_check, h]

/-- Witness theorem for C8 (amended) at the concrete empty-registry state. -/
theorem startup_timeout_zero_workers_witness :
    master_startup_check sA =
      ({ sA with simulation_active := false }, ExitAction.returnFromLoop,
        ["Master: No workers registered. Exiting simulation."])
    ∧ (master_startup_check sA).1.simulation_step = sA.simulation_step
    ∧ (master_startup_check sA).1.graph_data_history = sA.graph_data_history :=
  startup_timeout_zero_workers sA rfl

end TrafficSim
